import Mathlib

/-!
# Device registration and service-configuration model

A shallow embedding of `api/input.go` (package `api` of anax): the entity types
`Configstate`, `HorizonDevice`, `Attribute` and `Service`, their `String` renderings, the
redacting conversion `ConvertFromPersistentHorizonDevice` and the constructors `NewAttribute`
and `NewService`.

Conventions of the embedding:

* a Go pointer field `*T` is an `Option T` (`none` is the nil pointer);
* a pointer dereference is the fallible operation `deref`, so that code which can hit the
  run-time error "invalid memory address or nil pointer dereference" returns `Except.error`;
* `uint64` values are natural numbers (no arithmetic is performed on them, they are only
  copied and printed in decimal);
* a Go `map[string]interface{}` is an association list whose values range over a type
  parameter `V`, printed by a parameter `fmtV` (the `%v` rendering of a mapped value).
-/

namespace api

/-! ## Faults and pointers -/

/-- Run-time faults the code of this file can raise. -/
inductive Fault where
  /-- Fault text: "invalid memory address or nil pointer dereference". -/
  | nilDeref
  deriving DecidableEq, Repr

deriving instance DecidableEq for Except

/-- Pointer dereference `*p`: faults on the nil pointer. -/
def deref {α : Type} : Option α → Except Fault α
  | some v => Except.ok v
  | none => Except.error Fault.nilDeref

/-! ## The part of package `fmt` used by the renderings -/

/-- The text of a run-time error, as its `Error` method returns it. -/
def Fault.text : Fault → String
  | Fault.nilDeref => "runtime error: invalid memory address or nil pointer dereference"

/-- Rendering of a `string` by `%v`: the string itself. -/
def fmtString (s : String) : String :=
  s

/-- Rendering of a `bool` by `%v` and by `strconv.FormatBool`. -/
def fmtBool (b : Bool) : String :=
  if b then "true" else "false"

/-- Rendering of a `uint64` by `%v`: decimal digits. -/
def fmtUint (n : Nat) : String :=
  toString n

/-- Rendering of a `[]string` by `%v`: the elements separated by blanks, in brackets. -/
def fmtStrings (l : List String) : String :=
  "[" ++ " ".intercalate l ++ "]"

/-- Order on map keys used by `fmt` when it prints a map (keys are printed sorted). -/
def keyLE (a b : String) : Bool :=
  decide (a.data ≤ b.data)

/-- Insertion of one entry into a list of entries sorted by key. -/
def insertKey {V : Type} (kv : String × V) : List (String × V) → List (String × V)
  | [] => [kv]
  | x :: xs => if keyLE kv.1 x.1 then kv :: x :: xs else x :: insertKey kv xs

/-- Entries of a map in the order `fmt` prints them. -/
def sortKeys {V : Type} : List (String × V) → List (String × V)
  | [] => []
  | x :: xs => insertKey x (sortKeys xs)

/-- Rendering of a `map[string]interface{}` by `%v`: `map[k1:v1 k2:v2]`, the keys in sorted
order (the order `fmt` prints maps in since Go 1.12). -/
def fmtMap {V : Type} (fmtV : V → String) (m : List (String × V)) : String :=
  "map[" ++ " ".intercalate ((sortKeys m).map fun kv => kv.1 ++ ":" ++ fmtV kv.2) ++ "]"

/-- How `fmt` prints an operand that has a `String` method: the method's result, and when the
method panics the panic is recovered and printed (`<nil>` for a nil receiver, otherwise the
decorated message, in the wording of current Go releases). -/
def fmtStringer (receiverNil : Bool) (r : Except Fault String) : String :=
  match r with
  | Except.ok s => s
  | Except.error f =>
    if receiverNil then "<nil>" else "%!v(PANIC=String method: " ++ f.text ++ ")"

/-! ## Configstate -/

/-- The Go struct `Configstate`. -/
structure Configstate where
  State : Option String
  LastUpdateTime : Option Nat
  deriving DecidableEq, Repr

/-- The method `(c *Configstate) String()`; the receiver is a pointer and may be nil. -/
def Configstate.String (c : Option Configstate) : Except Fault String :=
  match c with
  | none => pure "Configstate: not set"
  | some c => do
    let state ← deref c.State
    let time ← deref c.LastUpdateTime
    pure ("State: " ++ state ++ ", Time: " ++ fmtUint time)

/-! ## HorizonDevice -/

/-- The Go struct `HorizonDevice`. -/
structure HorizonDevice where
  Id : Option String
  Org : Option String
  Pattern : Option String
  Name : Option String
  Token : Option String
  TokenLastValidTime : Option Nat
  TokenValid : Option Bool
  HA : Option Bool
  Config : Option Configstate
  deriving DecidableEq, Repr

/-- The method `(h HorizonDevice) String()`. -/
def HorizonDevice.String (h : HorizonDevice) : Except Fault String := do
  let id ← (if h.Id.isSome then deref h.Id else pure "not set")
  let org ← (if h.Org.isSome then deref h.Org else pure "not set")
  let pat ← (if h.Pattern.isSome then deref h.Pattern else pure "not set")
  let name ← (if h.Name.isSome then deref h.Name else pure "not set")
  let cred ← (if h.Token.isSome then do
      let token ← deref h.Token
      pure (if token != "" then "set" else "not set")
    else pure "not set")
  let tlvt ← (if h.TokenLastValidTime.isSome then deref h.TokenLastValidTime else pure 0)
  let tv ← (if h.TokenValid.isSome then deref h.TokenValid else pure false)
  let ha ← (if h.HA.isSome then deref h.HA else pure false)
  pure ("Id: " ++ id ++ ", Org: " ++ org ++ ", Pattern: " ++ pat ++ ", Name: " ++ name
    ++ ", Token: [" ++ cred ++ "], TokenLastValidTime: " ++ fmtUint tlvt
    ++ ", TokenValid: " ++ fmtBool tv ++ ", HA: " ++ fmtBool ha ++ ", "
    ++ fmtStringer h.Config.isNone (Configstate.String h.Config))

/-! ## The persisted record and the redacting conversion -/

namespace persistence

/-- Modelled from the spec: the configuration state inside the persisted device record
(`pDevice.Config` of `persistence.ExchangeDevice`, declared outside this file); the two
fields are the ones the conversion reads, held by value. -/
structure Configstate where
  State : String
  LastUpdateTime : Nat
  deriving DecidableEq, Repr

/-- Modelled from the spec: the canonical persisted device record
`persistence.ExchangeDevice`, declared outside this file: the fields the conversion reads,
held by value, and the credential `Token` that the conversion leaves out. -/
structure ExchangeDevice where
  Id : String
  Org : String
  Pattern : String
  Name : String
  Token : String
  TokenLastValidTime : Nat
  TokenValid : Bool
  HA : Bool
  Config : Configstate
  deriving DecidableEq, Repr

end persistence

/-- The function `ConvertFromPersistentHorizonDevice`; its argument is a pointer, whose
fields are read, and its result is a freshly allocated `HorizonDevice`. -/
def ConvertFromPersistentHorizonDevice (pDevice : Option persistence.ExchangeDevice) :
    Except Fault HorizonDevice := do
  let p ← deref pDevice
  pure {
    Id := some p.Id
    Org := some p.Org
    Pattern := some p.Pattern
    Name := some p.Name
    Token := none -- not named in the composite literal: left at its zero value, nil
    TokenValid := some p.TokenValid
    TokenLastValidTime := some p.TokenLastValidTime
    HA := some p.HA
    Config := some {
      State := some p.Config.State
      LastUpdateTime := some p.Config.LastUpdateTime } }

/-! ## Attribute -/

/-- The Go struct `Attribute`; the field `Type` is written `Type_`. -/
structure Attribute (V : Type) where
  Id : Option String
  Type_ : Option String
  SensorUrls : Option (List String)
  Label : Option String
  Publishable : Option Bool
  HostOnly : Option Bool
  Mappings : Option (List (String × V))
  deriving DecidableEq, Repr

/-- The closure `getString` of `Attribute.String`: `<nil>` for a nil pointer, otherwise the
`%v` rendering (`fmt1`, chosen by the pointee's type) of the value pointed to. -/
def getString {α : Type} (fmt1 : α → String) (v : Option α) : Except Fault String :=
  if v.isNone then pure "<nil>" else do
    let x ← deref v
    pure (fmt1 x)

/-- The method `(a Attribute) String()`. -/
def Attribute.String {V : Type} (fmtV : V → String) (a : Attribute V) :
    Except Fault String := do
  let id ← getString fmtString a.Id
  let type ← getString fmtString a.Type_
  let sensorUrls ← getString fmtStrings a.SensorUrls
  let label ← getString fmtString a.Label
  let publishable ← getString fmtBool a.Publishable
  let hostOnly ← getString fmtBool a.HostOnly
  let mappings ← getString (fmtMap fmtV) a.Mappings
  pure ("Id: " ++ id ++ ", Type: " ++ type ++ ", SensorUrls: " ++ sensorUrls
    ++ ", Label: " ++ label ++ ", Publishable: " ++ publishable
    ++ ", HostOnly: " ++ hostOnly ++ ", Mappings: " ++ mappings)

/-- The function `NewAttribute`. -/
def NewAttribute {V : Type} (t : String) (sURLs : List String) (l : String)
    (publishable : Bool) (hostOnly : Bool) (mappings : List (String × V)) : Attribute V :=
  { Id := none
    Type_ := some t
    SensorUrls := some sURLs
    Label := some l
    Publishable := some publishable
    HostOnly := some hostOnly
    Mappings := some mappings }

/-! ## Service -/

/-- The Go struct `Service`. -/
structure Service (V : Type) where
  Url : Option String
  Org : Option String
  Name : Option String
  Arch : Option String
  VersionRange : Option String
  AutoUpgrade : Option Bool
  ActiveUpgrade : Option Bool
  Attributes : Option (List (Attribute V))
  deriving DecidableEq, Repr

/-- Rendering of the operand `s.Attributes` (a `*[]Attribute`) by `%v`: `<nil>` for the nil
pointer, otherwise `&[...]` with every element printed through its `String` method. -/
def fmtAttributes {V : Type} (fmtV : V → String) : Option (List (Attribute V)) → String
  | none => "<nil>"
  | some l =>
    "&[" ++ " ".intercalate (l.map fun a => fmtStringer false (Attribute.String fmtV a)) ++ "]"

/-- The method `(s *Service) String()`; the receiver is a pointer and may be nil. -/
def Service.String {V : Type} (fmtV : V → String) (s : Option (Service V)) :
    Except Fault String := do
  let s ← deref s
  let sURL ← (if s.Url.isSome then deref s.Url else pure "")
  let sOrg ← (if s.Org.isSome then deref s.Org else pure "")
  let sName ← (if s.Name.isSome then deref s.Name else pure "")
  let sArch ← (if s.Arch.isSome then deref s.Arch else pure "")
  let sVersion ← (if s.VersionRange.isSome then deref s.VersionRange else pure "")
  let auto_upgrade ← (if s.AutoUpgrade.isSome then do
      let b ← deref s.AutoUpgrade
      pure (fmtBool b)
    else pure "")
  let active_upgrade ← (if s.ActiveUpgrade.isSome then do
      let b ← deref s.ActiveUpgrade
      pure (fmtBool b)
    else pure "")
  pure ("Url: " ++ sURL ++ ", Org: " ++ sOrg ++ ", Name: " ++ sName ++ ", Arch: " ++ sArch
    ++ ", VersionRange: " ++ sVersion ++ ", AutoUpgrade: " ++ auto_upgrade
    ++ ", ActiveUpgrade: " ++ active_upgrade ++ ", Attributes: "
    ++ fmtAttributes fmtV s.Attributes)

namespace microservice

/-- Modelled from the spec: the constant `microservice.MS_DEFAULT_AUTOUPGRADE`, declared
outside this file; the spec (and the comment on `Service.AutoUpgrade`) gives the default
`true`. -/
def MS_DEFAULT_AUTOUPGRADE : Bool := true

/-- Modelled from the spec: the constant `microservice.MS_DEFAULT_ACTIVEUPGRADE`, declared
outside this file; the spec (and the comment on `Service.ActiveUpgrade`) gives the default
`false`. -/
def MS_DEFAULT_ACTIVEUPGRADE : Bool := false

end microservice

/-- The function `NewService`. -/
def NewService {V : Type} (url : String) (org : String) (name : String) (arch : String)
    (v : String) : Service V :=
  let autoUpgrade := microservice.MS_DEFAULT_AUTOUPGRADE
  let activeUpgrade := microservice.MS_DEFAULT_ACTIVEUPGRADE
  { Url := some url
    Org := some org
    Name := some name
    Arch := some arch
    VersionRange := some v
    AutoUpgrade := some autoUpgrade
    ActiveUpgrade := some activeUpgrade
    Attributes := some [] }

/-! ## Vocabulary of the statements -/

/-- The text `piece` occurs in the text `s`. -/
def hasPart (s piece : String) : Prop :=
  piece.data <:+: s.data

instance (s piece : String) : Decidable (hasPart s piece) :=
  inferInstanceAs (Decidable (piece.data <:+: s.data))

/-- The presence indicator `HorizonDevice.String` computes for the credential (`cred`):
`set` for a present, non-empty token and `not set` otherwise. -/
def credText (token : Option String) : String :=
  (token.map fun t => if t != "" then "set" else "not set").getD "not set"

/-- One field of an `Attribute` as its rendering is described: `<nil>` when the field is
unset, and the value it holds (printed by `show1`) when it is present. -/
def shownOrNil {α : Type} (show1 : α → String) : Option α → String
  | none => "<nil>"
  | some v => show1 v

/-- The described form of the rendering of an `Attribute`: seven labelled positions. -/
def attributeForm (id type sensorUrls label publishable hostOnly mappings : String) : String :=
  "Id: " ++ id ++ ", Type: " ++ type ++ ", SensorUrls: " ++ sensorUrls ++ ", Label: " ++ label
    ++ ", Publishable: " ++ publishable ++ ", HostOnly: " ++ hostOnly
    ++ ", Mappings: " ++ mappings

/-- The layout of the rendering of a `HorizonDevice`: nine positions, the credential's in
brackets and the configuration state's last, without a label of its own. -/
def deviceForm (id org pattern name cred tlvt tokenValid ha config : String) : String :=
  "Id: " ++ id ++ ", Org: " ++ org ++ ", Pattern: " ++ pattern ++ ", Name: " ++ name
    ++ ", Token: [" ++ cred ++ "], TokenLastValidTime: " ++ tlvt ++ ", TokenValid: " ++ tokenValid
    ++ ", HA: " ++ ha ++ ", " ++ config

/-- The layout of the rendering of a `Service`: eight labelled positions. -/
def serviceForm (url org name arch versionRange autoUpgrade activeUpgrade attributes : String) :
    String :=
  "Url: " ++ url ++ ", Org: " ++ org ++ ", Name: " ++ name ++ ", Arch: " ++ arch
    ++ ", VersionRange: " ++ versionRange ++ ", AutoUpgrade: " ++ autoUpgrade
    ++ ", ActiveUpgrade: " ++ activeUpgrade ++ ", Attributes: " ++ attributes

/-- A rendering of mapped values, for the concrete instances below. -/
def fmtNat (n : Nat) : String :=
  toString n

/-! ## Concrete records used to exercise the statements -/

/-- A persisted record with a non-empty credential. -/
def recordA : persistence.ExchangeDevice :=
  { Id := "dev1", Org := "org1", Pattern := "pat1", Name := "node1", Token := "s3cret"
    TokenLastValidTime := 1500000000, TokenValid := true, HA := false
    Config := { State := "configured", LastUpdateTime := 1500000100 } }

/-- The record `recordA` with another non-empty credential. -/
def recordB : persistence.ExchangeDevice :=
  { recordA with Token := "other-token" }

/-- A device that carries a non-empty token, with its other fields set or unset. -/
def deviceA : HorizonDevice :=
  { Id := some "dev1", Org := some "org1", Pattern := none, Name := some "node1"
    Token := some "s3cret", TokenLastValidTime := some 7, TokenValid := some true, HA := none
    Config := some { State := some "configured", LastUpdateTime := some 9 } }

/-- The zero value of `Configstate`: both fields unset. -/
def zeroConfigstate : Configstate :=
  { State := none, LastUpdateTime := none }

/-- The zero value of `HorizonDevice`: every field unset. -/
def zeroDevice : HorizonDevice :=
  { Id := none, Org := none, Pattern := none, Name := none, Token := none
    TokenLastValidTime := none, TokenValid := none, HA := none, Config := none }

/-- The zero value of `Attribute`: every field unset. -/
def zeroAttribute : Attribute Nat :=
  { Id := none, Type_ := none, SensorUrls := none, Label := none, Publishable := none
    HostOnly := none, Mappings := none }

/-- The zero value of `Service`: every field unset. -/
def zeroService : Service Nat :=
  { Url := none, Org := none, Name := none, Arch := none, VersionRange := none
    AutoUpgrade := none, ActiveUpgrade := none, Attributes := none }

/-! ## Serialisation by the field tags -/

/-- A JSON value, as far as the types of this file are serialised to one. -/
inductive Json where
  | null
  | bool (b : Bool)
  | num (n : Nat)
  | str (s : String)
  | obj (fields : List (String × Json))

/-- The keys of a JSON object, in the order they are written. -/
def Json.keys : Json → List String
  | Json.obj fields => fields.map Prod.fst
  | _ => []

/-- A pointer field whose tag has no `omitempty`: the nil pointer is written as `null`. -/
def jsonField {α : Type} (key : String) (enc : α → Json) (v : Option α) :
    List (String × Json) :=
  [(key, match v with
    | none => Json.null
    | some x => enc x)]

/-- A pointer field tagged `omitempty`: the nil pointer is left out of the object, every
other value (also a pointer to the empty string, to `false` or to 0) is written. -/
def jsonFieldOmitEmpty {α : Type} (key : String) (enc : α → Json) (v : Option α) :
    List (String × Json) :=
  match v with
  | none => []
  | some x => [(key, enc x)]

/-- The JSON object `encoding/json` writes for a `Configstate`, by its field tags. -/
def marshalConfigstate (c : Configstate) : Json :=
  Json.obj (jsonField "state" Json.str c.State
    ++ jsonFieldOmitEmpty "last_update_time" Json.num c.LastUpdateTime)

/-- The JSON object `encoding/json` writes for a `HorizonDevice`, by its field tags. -/
def marshalHorizonDevice (h : HorizonDevice) : Json :=
  Json.obj (jsonField "id" Json.str h.Id
    ++ jsonField "organization" Json.str h.Org
    ++ jsonField "pattern" Json.str h.Pattern
    ++ jsonFieldOmitEmpty "name" Json.str h.Name
    ++ jsonFieldOmitEmpty "token" Json.str h.Token
    ++ jsonFieldOmitEmpty "token_last_valid_time" Json.num h.TokenLastValidTime
    ++ jsonFieldOmitEmpty "token_valid" Json.bool h.TokenValid
    ++ jsonFieldOmitEmpty "ha" Json.bool h.HA
    ++ jsonFieldOmitEmpty "configstate" marshalConfigstate h.Config)

/-! ## Configuration state machine -/

/-- Modelled from the spec: the closed enumeration of lifecycle phases the design mandates
for `ConfigurationState.phase` (the source keeps a free-form string in `Configstate.State`
and holds no transition code). -/
inductive Phase where
  | unconfigured
  | configuring
  | configured
  | failed
  deriving DecidableEq, Repr

/-- Modelled from the spec: the value-returned conditions of the error taxonomy; the source
file declares none of them. -/
inductive Condition where
  | InvalidTransition (current target : Phase)
  | AmbiguousConfiguration
  | InvalidAttribute
  | MalformedVersionRange
  | MissingRequiredField
  deriving DecidableEq, Repr

/-- Modelled from the spec: the entity `ConfigurationState`, a phase and the optional time
(epoch seconds) of its last change. -/
structure ConfigurationState where
  phase : Phase
  lastUpdateTime : Option Nat
  deriving DecidableEq, Repr

/-- Modelled from the spec: the allowed edges of the configuration state machine, which is
absent from the source: `unconfigured → configuring → configured`, any state `→ failed`, and
`configured → configuring` for re-registration; nothing returns to `unconfigured`. -/
def allowedEdge : Phase → Phase → Bool
  | Phase.unconfigured, Phase.configuring => true
  | Phase.configuring, Phase.configured => true
  | Phase.configured, Phase.configuring => true
  | _, Phase.failed => true
  | _, _ => false

/-- Modelled from the spec: the operation `transition(current, target)`, which is absent from
the source: it succeeds only along an allowed edge, then stamps `lastUpdateTime` with the
wall-clock time `now` of the transition, and otherwise fails with `InvalidTransition` naming
the current phase and the requested target. -/
def transition (now : Nat) (current : ConfigurationState) (target : Phase) :
    Except Condition ConfigurationState :=
  if allowedEdge current.phase target then
    Except.ok { phase := target, lastUpdateTime := some now }
  else
    Except.error (Condition.InvalidTransition current.phase target)

/-! ## Service descriptor resolution -/

/-- Modelled from the spec: one dot-separated identifier of the pre-release segment of a
semantic version, numeric or textual; no version code is in the source. -/
inductive PreId where
  | numeric (n : Nat)
  | text (cs : List Char)
  deriving DecidableEq, Repr

/-- Modelled from the spec: a semantic version `major.minor.patch` with the identifiers of
its pre-release segment (none for a release); no version code is in the source. -/
structure Version where
  major : Nat
  minor : Nat
  patch : Nat
  pre : List PreId
  deriving DecidableEq, Repr

/-- Modelled from the spec: the pieces of a text between the occurrences of a separator. -/
def splitOnChar (sep : Char) : List Char → List (List Char)
  | [] => [[]]
  | c :: cs =>
    if c = sep then [] :: splitOnChar sep cs
    else
      match splitOnChar sep cs with
      | [] => [[c]]
      | piece :: pieces => (c :: piece) :: pieces

/-- Modelled from the spec: a non-empty run of decimal digits read as a number. -/
def parseNumber (cs : List Char) : Option Nat :=
  if cs = [] then none
  else cs.foldl (fun acc c => acc.bind fun n =>
    if c.isDigit then some (10 * n + (c.toNat - 48)) else none) (some 0)

/-- Modelled from the spec: one pre-release identifier: a run of digits is numeric, any
other non-empty run of letters, digits and hyphens is textual. -/
def parsePreId (cs : List Char) : Option PreId :=
  if cs = [] then none
  else if cs.all Char.isDigit then (parseNumber cs).map PreId.numeric
  else if cs.all (fun c => c.isAlphanum || c == '-') then some (PreId.text cs)
  else none

/-- Modelled from the spec: the identifiers of a pre-release segment, all of them
well-formed. -/
def parsePreIds : List (List Char) → Option (List PreId)
  | [] => some []
  | cs :: rest => do
    let id ← parsePreId cs
    let ids ← parsePreIds rest
    pure (id :: ids)

/-- Modelled from the spec: the text of a version, `major.minor.patch` or
`major.minor.patch-pre`, read as a `Version`. -/
def parseVersion (cs : List Char) : Option Version :=
  match splitOnChar '.' (cs.takeWhile fun c => c != '-') with
  | [a, b, c] => do
    let major ← parseNumber a
    let minor ← parseNumber b
    let patch ← parseNumber c
    let pre ← (if cs.contains '-' then
        parsePreIds (splitOnChar '.' ((cs.dropWhile fun c => c != '-').drop 1))
      else some [])
    pure { major := major, minor := minor, patch := patch, pre := pre }
  | _ => none

/-- Modelled from the spec: the order of two pre-release identifiers in the standard
semantic-version ordering: numeric ones by value, textual ones lexically, a numeric one
before a textual one. -/
def PreId.lt : PreId → PreId → Bool
  | PreId.numeric a, PreId.numeric b => decide (a < b)
  | PreId.numeric _, PreId.text _ => true
  | PreId.text _, PreId.numeric _ => false
  | PreId.text a, PreId.text b => decide (a < b)

/-- Modelled from the spec: the order of two pre-release segments: identifier by
identifier, a segment that is a proper beginning of another one coming first. -/
def preLt : List PreId → List PreId → Bool
  | [], [] => false
  | [], _ :: _ => true
  | _ :: _, [] => false
  | a :: as, b :: bs => a.lt b || (a == b && preLt as bs)

/-- Modelled from the spec: the standard semantic-version ordering: numeric on major, minor
and patch; for equal numbers a pre-release comes before its release, and two pre-releases
are ordered by their segments. -/
def Version.lt (a b : Version) : Bool :=
  decide (a.major < b.major) || (a.major == b.major &&
    (decide (a.minor < b.minor) || (a.minor == b.minor &&
      (decide (a.patch < b.patch) || (a.patch == b.patch &&
        (match a.pre, b.pre with
          | [], _ => false
          | _ :: _, [] => true
          | pa, pb => preLt pa pb))))))

/-- Modelled from the spec: a version range, an interval each of whose ends is closed or
open. -/
structure VersionRange where
  low : Version
  lowClosed : Bool
  high : Version
  highClosed : Bool
  deriving DecidableEq, Repr

/-- Modelled from the spec: the grammar of version ranges, an interval such as
`[1.0.0,2.0.0)` (square bracket closed, round bracket open) or a bare version, which means
an exact match; any other text is malformed. -/
def parseVersionRange (cs : List Char) : Option VersionRange :=
  match cs with
  | opening :: rest =>
    if opening = '[' ∨ opening = '(' then
      match rest.getLast?, splitOnChar ',' rest.dropLast with
      | some closing, [low, high] =>
        if closing = ']' ∨ closing = ')' then do
          let l ← parseVersion low
          let h ← parseVersion high
          pure { low := l, lowClosed := opening = '[', high := h, highClosed := closing = ']' }
        else none
      | _, _ => none
    else (parseVersion cs).map fun v =>
      { low := v, lowClosed := true, high := v, highClosed := true }
  | [] => none

/-- Modelled from the spec: containment of a version in a range: not below a closed lower
end, above an open one, and likewise at the upper end. -/
def VersionRange.contains (r : VersionRange) (v : Version) : Bool :=
  (if r.lowClosed then !v.lt r.low else r.low.lt v)
    && (if r.highClosed then !r.high.lt v else v.lt r.high)

/-- Modelled from the spec: whether the range expression of a descriptor contains the
candidate version; a range that cannot be read is the condition `MalformedVersionRange`. -/
def rangeContains (range : String) (version : Version) : Except Condition Bool :=
  match parseVersionRange range.data with
  | some r => Except.ok (r.contains version)
  | none => Except.error Condition.MalformedVersionRange

/-- Modelled from the spec: the candidate service handed to the resolver. -/
structure Candidate where
  org : String
  url : String
  arch : String
  version : Version
  deriving DecidableEq, Repr

/-- Modelled from the spec: the matching rule of the resolver, which is absent from the
source: `org` and `url` equal, `arch` equal after the synonym normalisation `normArch` (its
table is owned elsewhere, hence a parameter), and the descriptor's range containing the
candidate version; the range of a descriptor for the candidate's service is read, and a
malformed one surfaces as a condition. -/
def matchesCandidate {V : Type} (normArch : String → String) (c : Candidate)
    (d : Service V) : Except Condition Bool :=
  if d.Org == some c.org && d.Url == some c.url
      && d.Arch.map normArch == some (normArch c.arch) then
    match d.VersionRange with
    | some r => rangeContains r c.version
    | none => Except.ok false
  else Except.ok false

/-- Modelled from the spec: the descriptors that match the candidate, in their order; a
condition met on the way is surfaced unchanged. -/
def selectMatching {V : Type} (normArch : String → String) (c : Candidate) :
    List (Service V) → Except Condition (List (Service V))
  | [] => Except.ok []
  | d :: ds => do
    let isMatch ← matchesCandidate normArch c d
    let rest ← selectMatching normArch c ds
    pure (if isMatch then d :: rest else rest)

/-- Modelled from the spec: the resolver, which is absent from the source: of a device's
descriptors it selects the one matching the candidate, if any, and fails with
`AmbiguousConfiguration` when more than one matches. -/
def resolve {V : Type} (normArch : String → String) (descriptors : List (Service V))
    (c : Candidate) : Except Condition (Option (Service V)) := do
  let matching ← selectMatching normArch c descriptors
  match matching with
  | [] => pure none
  | [d] => pure (some d)
  | _ :: _ :: _ => Except.error Condition.AmbiguousConfiguration

/-- The first descriptor of the resolver example: range `[1.0.0,2.0.0)`. -/
def descriptorOne : Service Nat :=
  NewService "u1" "o1" "svc" "amd64" "[1.0.0,2.0.0)"

/-- The second descriptor of the resolver example: range `[1.5.0,3.0.0)`. -/
def descriptorTwo : Service Nat :=
  NewService "u1" "o1" "svc" "amd64" "[1.5.0,3.0.0)"

/-- A version without pre-release segment. -/
def release (major minor patch : Nat) : Version :=
  { major := major, minor := minor, patch := patch, pre := [] }

/-- The candidate of the resolver example, at a given version. -/
def candidateAt (version : Version) : Candidate :=
  { org := "o1", url := "u1", arch := "amd64", version := version }

/-- A descriptor like `descriptorOne` held by another organisation. -/
def descriptorOtherOrg : Service Nat :=
  NewService "u1" "o2" "svc" "amd64" "[1.0.0,2.0.0)"

/-- A descriptor like `descriptorOne` for another service URL. -/
def descriptorOtherUrl : Service Nat :=
  NewService "u2" "o1" "svc" "amd64" "[1.0.0,2.0.0)"

/-- A descriptor like `descriptorOne` for another architecture. -/
def descriptorOtherArch : Service Nat :=
  NewService "u1" "o1" "svc" "arm" "[1.0.0,2.0.0)"

/-- A descriptor like `descriptorOne` whose architecture is written as a synonym. -/
def descriptorSynonym : Service Nat :=
  NewService "u1" "o1" "svc" "x86_64" "[1.0.0,2.0.0)"

/-- A descriptor like `descriptorOne` whose range cannot be read. -/
def descriptorMalformed : Service Nat :=
  NewService "u1" "o1" "svc" "amd64" "1.0.0,2.0.0"

/-- A normalisation of architecture names that knows one synonym. -/
def normaliseArch (arch : String) : String :=
  if arch = "x86_64" then "amd64" else arch

/-- A device whose configuration state is present with `State` unset. -/
def deviceHalfConfigured : HorizonDevice :=
  { zeroDevice with Config := some { State := none, LastUpdateTime := some 3 } }

/-- An attribute with every field present: two sensor URLs, and two mapped values whose keys
are not in sorted order. -/
def fullAttribute : Attribute Nat :=
  { Id := some "a1", Type_ := some "location", SensorUrls := some ["u1", "u2"]
    Label := some "where", Publishable := some true, HostOnly := some false
    Mappings := some [("z", 1), ("a", 2)] }

/-! ## Auxiliary facts -/

theorem deref_some {α : Type} (v : α) : deref (some v) = Except.ok v :=
  rfl

theorem deref_guard {α : Type} (p : Option α) (d : α) :
    (if p.isSome = true then deref p else pure d) = (Except.ok (p.getD d) : Except Fault α) := by
  cases p <;> rfl

theorem deref_guard_map {α β : Type} (p : Option α) (d : β) (f : α → β) :
    (if p.isSome = true then (do let x ← deref p; pure (f x)) else pure d)
      = (Except.ok ((p.map f).getD d) : Except Fault β) := by
  cases p <;> rfl

theorem ok_bind {α β : Type} (a : α) (f : α → Except Fault β) :
    (Except.ok a >>= f) = f a :=
  rfl

theorem getString_ok {α : Type} (show1 : α → String) (v : Option α) :
    getString show1 v = Except.ok (shownOrNil show1 v) := by
  cases v <;> rfl

theorem append_ne_empty (a b : String) (h : a ≠ "") : a ++ b ≠ "" := by
  intro hab
  apply h
  have hd := congrArg String.data hab
  simp only [String.data_append] at hd
  exact String.ext (List.append_eq_nil.mp hd).1

theorem hasPart_append_right {u piece : String} (h : hasPart u piece) (w : String) :
    hasPart (u ++ w) piece := by
  unfold hasPart at *
  rw [String.data_append]
  exact h.trans (List.prefix_append _ _).isInfix

theorem hasPart_append_left {u piece : String} (h : hasPart u piece) (w : String) :
    hasPart (w ++ u) piece := by
  unfold hasPart at *
  rw [String.data_append]
  exact h.trans (List.suffix_append _ _).isInfix

theorem hasPart_self (u : String) : hasPart u u :=
  List.infix_refl _

/-- Normal form of `HorizonDevice.String`: it returns a string for every device. -/
theorem device_String_ok (h : HorizonDevice) :
    h.String = Except.ok ("Id: " ++ h.Id.getD "not set" ++ ", Org: " ++ h.Org.getD "not set"
      ++ ", Pattern: " ++ h.Pattern.getD "not set" ++ ", Name: " ++ h.Name.getD "not set"
      ++ ", Token: [" ++ credText h.Token
      ++ "], TokenLastValidTime: " ++ fmtUint (h.TokenLastValidTime.getD 0)
      ++ ", TokenValid: " ++ fmtBool (h.TokenValid.getD false)
      ++ ", HA: " ++ fmtBool (h.HA.getD false) ++ ", "
      ++ fmtStringer h.Config.isNone (Configstate.String h.Config)) := by
  simp only [HorizonDevice.String, deref_guard, deref_guard_map, ok_bind, credText]
  rfl

/-- Normal form of `Attribute.String`: it returns a string for every attribute. -/
theorem attribute_String_ok {V : Type} (fmtV : V → String) (a : Attribute V) :
    a.String fmtV = Except.ok (attributeForm (shownOrNil fmtString a.Id)
      (shownOrNil fmtString a.Type_) (shownOrNil fmtStrings a.SensorUrls)
      (shownOrNil fmtString a.Label) (shownOrNil fmtBool a.Publishable)
      (shownOrNil fmtBool a.HostOnly) (shownOrNil (fmtMap fmtV) a.Mappings)) := by
  simp only [Attribute.String, getString_ok, ok_bind, attributeForm]
  rfl

/-- Normal form of `Service.String` on a present receiver. -/
theorem service_String_ok {V : Type} (fmtV : V → String) (s : Service V) :
    Service.String fmtV (some s) = Except.ok ("Url: " ++ s.Url.getD "" ++ ", Org: "
      ++ s.Org.getD "" ++ ", Name: " ++ s.Name.getD "" ++ ", Arch: " ++ s.Arch.getD ""
      ++ ", VersionRange: " ++ s.VersionRange.getD ""
      ++ ", AutoUpgrade: " ++ (s.AutoUpgrade.map fmtBool).getD ""
      ++ ", ActiveUpgrade: " ++ (s.ActiveUpgrade.map fmtBool).getD ""
      ++ ", Attributes: " ++ fmtAttributes fmtV s.Attributes) := by
  simp only [Service.String, deref_some, deref_guard, deref_guard_map, ok_bind]
  rfl

/-- Rendering a `HorizonDevice` never faults and never yields the empty string. -/
theorem device_String_nonempty (h : HorizonDevice) :
    ∃ s, h.String = Except.ok s ∧ s ≠ "" := by
  refine ⟨_, device_String_ok h, ?_⟩
  repeat (first | exact (by decide) | apply append_ne_empty)

/-- Rendering an `Attribute` never faults and never yields the empty string. -/
theorem attribute_String_nonempty {V : Type} (fmtV : V → String) (a : Attribute V) :
    ∃ s, a.String fmtV = Except.ok s ∧ s ≠ "" := by
  refine ⟨_, attribute_String_ok fmtV a, ?_⟩
  unfold attributeForm
  repeat (first | exact (by decide) | apply append_ne_empty)

/-- Rendering a present `Service` never faults and never yields the empty string. -/
theorem service_String_nonempty {V : Type} (fmtV : V → String) (s : Service V) :
    ∃ r, Service.String fmtV (some s) = Except.ok r ∧ r ≠ "" := by
  refine ⟨_, service_String_ok fmtV s, ?_⟩
  repeat (first | exact (by decide) | apply append_ne_empty)

/-! ## Conversion from the persisted record -/

theorem convert_present (p : persistence.ExchangeDevice) :
    ConvertFromPersistentHorizonDevice (some p) = Except.ok
      { Id := some p.Id, Org := some p.Org, Pattern := some p.Pattern, Name := some p.Name
        Token := none, TokenLastValidTime := some p.TokenLastValidTime
        TokenValid := some p.TokenValid, HA := some p.HA
        Config := some { State := some p.Config.State
                         LastUpdateTime := some p.Config.LastUpdateTime } } :=
  rfl

/-- C1: for every persisted device record, whatever its token, the conversion returns a
`HorizonDevice` whose `Token` field is unset. -/
theorem C1_converted_token_unset (p : persistence.ExchangeDevice) :
    ∃ h, ConvertFromPersistentHorizonDevice (some p) = Except.ok h ∧ h.Token = none :=
  ⟨_, rfl, rfl⟩

/-- C2: the conversion does not depend on the credential: two persisted records that agree
on every field other than the token (whatever the two tokens are, in particular when both
are non-empty) convert to equal values. -/
theorem C2_conversion_ignores_token (p q : persistence.ExchangeDevice)
    (hId : p.Id = q.Id) (hOrg : p.Org = q.Org) (hPattern : p.Pattern = q.Pattern)
    (hName : p.Name = q.Name) (hTime : p.TokenLastValidTime = q.TokenLastValidTime)
    (hValid : p.TokenValid = q.TokenValid) (hHA : p.HA = q.HA) (hConfig : p.Config = q.Config) :
    ConvertFromPersistentHorizonDevice (some p) = ConvertFromPersistentHorizonDevice (some q) := by
  rw [convert_present p, convert_present q, hId, hOrg, hPattern, hName, hTime, hValid, hHA,
    hConfig]

/-- Witness of C2 on two records that differ in their (non-empty) tokens only. -/
theorem C2_conversion_ignores_token_witness :
    recordA.Token ≠ "" ∧ recordB.Token ≠ "" ∧ recordA.Token ≠ recordB.Token ∧
    ConvertFromPersistentHorizonDevice (some recordA)
      = ConvertFromPersistentHorizonDevice (some recordB) :=
  ⟨by decide, by decide, by decide,
    C2_conversion_ignores_token recordA recordB rfl rfl rfl rfl rfl rfl rfl rfl⟩

/-- C3: for every persisted device record the conversion returns a `HorizonDevice` in which
`Id`, `Org`, `Pattern`, `Name`, `TokenValid`, `TokenLastValidTime`, `HA` and `Config` are
present and equal to the record's fields, `Config` holding `State` and `LastUpdateTime`
both present and equal to the record's. -/
theorem C3_converted_fields_present (p : persistence.ExchangeDevice) :
    ∃ h c, ConvertFromPersistentHorizonDevice (some p) = Except.ok h ∧
      h.Id = some p.Id ∧ h.Org = some p.Org ∧ h.Pattern = some p.Pattern ∧
      h.Name = some p.Name ∧ h.TokenValid = some p.TokenValid ∧
      h.TokenLastValidTime = some p.TokenLastValidTime ∧ h.HA = some p.HA ∧
      h.Config = some c ∧ c.State = some p.Config.State ∧
      c.LastUpdateTime = some p.Config.LastUpdateTime :=
  ⟨_, _, rfl, rfl, rfl, rfl, rfl, rfl, rfl, rfl, rfl, rfl, rfl⟩

/-! ## Constructors -/

/-- C4: `NewService url org name arch v` has all eight fields present: the five arguments,
`AutoUpgrade = true`, `ActiveUpgrade = false` and an empty attribute sequence. -/
theorem C4_new_service_fields {V : Type} (url org name arch v : String) :
    (NewService url org name arch v : Service V).Url = some url ∧
    (NewService url org name arch v : Service V).Org = some org ∧
    (NewService url org name arch v : Service V).Name = some name ∧
    (NewService url org name arch v : Service V).Arch = some arch ∧
    (NewService url org name arch v : Service V).VersionRange = some v ∧
    (NewService url org name arch v : Service V).AutoUpgrade = some true ∧
    (NewService url org name arch v : Service V).ActiveUpgrade = some false ∧
    (NewService url org name arch v : Service V).Attributes = some [] :=
  ⟨rfl, rfl, rfl, rfl, rfl, rfl, rfl, rfl⟩

/-- C5, as stated, fails: called with `publishable = true` and `hostOnly = true`,
`NewAttribute` returns an attribute that has both flags set. -/
theorem C5_both_flags_accepted :
    (NewAttribute "t" ["u"] "l" true true [("k", 1)] : Attribute Nat).Publishable = some true ∧
    (NewAttribute "t" ["u"] "l" true true [("k", 1)] : Attribute Nat).HostOnly = some true :=
  ⟨rfl, rfl⟩

/-- C5, amended: for every type, sensor-URL list, label and mappings, `NewAttribute` called
with `publishable = true` and `hostOnly = true` does no validation: it returns an attribute
with `Publishable` and `HostOnly` both present and true, its other fields as in C6. -/
theorem C5_new_attribute_keeps_both_flags {V : Type} (t : String) (sURLs : List String)
    (l : String) (mappings : List (String × V)) :
    NewAttribute t sURLs l true true mappings =
      { Id := none, Type_ := some t, SensorUrls := some sURLs, Label := some l
        Publishable := some true, HostOnly := some true, Mappings := some mappings } :=
  rfl

/-- C6: for all arguments, `NewAttribute` returns an attribute whose `Type`, `SensorUrls`,
`Label`, `Publishable`, `HostOnly` and `Mappings` are present and equal to the corresponding
argument, and whose `Id` is unset. -/
theorem C6_new_attribute_fields {V : Type} (t : String) (sURLs : List String) (l : String)
    (publishable hostOnly : Bool) (mappings : List (String × V)) :
    (NewAttribute t sURLs l publishable hostOnly mappings).Id = none ∧
    (NewAttribute t sURLs l publishable hostOnly mappings).Type_ = some t ∧
    (NewAttribute t sURLs l publishable hostOnly mappings).SensorUrls = some sURLs ∧
    (NewAttribute t sURLs l publishable hostOnly mappings).Label = some l ∧
    (NewAttribute t sURLs l publishable hostOnly mappings).Publishable = some publishable ∧
    (NewAttribute t sURLs l publishable hostOnly mappings).HostOnly = some hostOnly ∧
    (NewAttribute t sURLs l publishable hostOnly mappings).Mappings = some mappings :=
  ⟨rfl, rfl, rfl, rfl, rfl, rfl, rfl⟩

/-! ## Renderings -/

theorem credText_set (t : String) (h : t ≠ "") : credText (some t) = "set" := by
  simp [credText, h]

theorem credText_unset (token : Option String) (h : ∀ t, token = some t → t = "") :
    credText token = "not set" := by
  cases token with
  | none => rfl
  | some t => rw [h t rfl]; rfl

theorem hasPart_suffix3 (p a b c : String) : hasPart (p ++ a ++ b ++ c) (a ++ b ++ c) := by
  have e : p ++ a ++ b ++ c = p ++ (a ++ b ++ c) := by
    simp only [String.append_assoc]
  rw [e]
  exact hasPart_append_left (hasPart_self _) p

theorem device_shows_cred (d : HorizonDevice) :
    ∃ s, d.String = Except.ok s ∧ hasPart s ("Token: [" ++ credText d.Token ++ "]") := by
  refine ⟨_, device_String_ok d, ?_⟩
  rw [show (", Token: [" : String) = ", " ++ "Token: [" from by decide,
    show ("], TokenLastValidTime: " : String) = "]" ++ ", TokenLastValidTime: " from by decide]
  simp only [← String.append_assoc]
  iterate 8 refine hasPart_append_right ?_ _
  exact hasPart_suffix3 _ _ _ _

/-- C7 fails on the code: the zero value of `Configstate` (a present receiver whose `State`
and `LastUpdateTime` are unset) does not render, `Configstate.String` faults on it with a
nil dereference. -/
theorem C7_zero_configstate_faults :
    Configstate.String (some zeroConfigstate) = Except.error Fault.nilDeref :=
  rfl

/-- C8: `HorizonDevice.String` shows the credential as a presence indicator only: the
rendering contains `Token: [set]` when the token is present and non-empty and
`Token: [not set]` otherwise, and two devices that differ only in their non-empty tokens
render to the same string. -/
theorem C8_token_presence_indicator (d : HorizonDevice) (t₁ t₂ : String)
    (n₁ : t₁ ≠ "") (n₂ : t₂ ≠ "") :
    (∃ s, d.String = Except.ok s ∧
      ((∃ t, d.Token = some t ∧ t ≠ "") → hasPart s "Token: [set]") ∧
      ((∀ t, d.Token = some t → t = "") → hasPart s "Token: [not set]")) ∧
    HorizonDevice.String { d with Token := some t₁ }
      = HorizonDevice.String { d with Token := some t₂ } := by
  constructor
  · obtain ⟨s, hs, hpart⟩ := device_shows_cred d
    refine ⟨s, hs, ?_, ?_⟩
    · rintro ⟨t, ht, hne⟩
      rw [ht, credText_set t hne] at hpart
      exact hpart
    · intro hunset
      rw [credText_unset d.Token hunset] at hpart
      exact hpart
  · rw [device_String_ok, device_String_ok]
    simp only [credText_set t₁ n₁, credText_set t₂ n₂]

/-- Witness of C8 on a device with a token, and on the two tokens `abc` and `xyz`. -/
theorem C8_token_presence_indicator_witness :
    ("abc" : String) ≠ "" ∧ ("xyz" : String) ≠ "" ∧
    HorizonDevice.String deviceA = Except.ok
      "Id: dev1, Org: org1, Pattern: not set, Name: node1, Token: [set], TokenLastValidTime: 7, TokenValid: true, HA: false, State: configured, Time: 9" ∧
    HorizonDevice.String { deviceA with Token := some "abc" }
      = HorizonDevice.String { deviceA with Token := some "xyz" } :=
  ⟨by decide, by decide, by decide,
    (C8_token_presence_indicator deviceA "abc" "xyz" (by decide) (by decide)).2⟩

set_option maxRecDepth 100000 in
/-- C9, as stated, fails: the zero value of `Attribute` renders every unset field as `<nil>`,
and the text `not set` occurs nowhere in its rendering. -/
theorem C9_unset_attribute_fields_show_nil :
    Attribute.String fmtNat zeroAttribute = Except.ok
      "Id: <nil>, Type: <nil>, SensorUrls: <nil>, Label: <nil>, Publishable: <nil>, HostOnly: <nil>, Mappings: <nil>" ∧
    ¬ hasPart
      "Id: <nil>, Type: <nil>, SensorUrls: <nil>, Label: <nil>, Publishable: <nil>, HostOnly: <nil>, Mappings: <nil>"
      "not set" :=
  ⟨by rfl, by decide⟩

/-- C9, amended: an unset optional field is rendered, in that field's position, by a
fallback that depends on the type and the field. A nil `Configstate` renders as
`Configstate: not set`. A `HorizonDevice` shows `not set` for an unset `Id`, `Org`,
`Pattern` or `Name`, the indicator `not set` for an unset `Token`, `0` for an unset
`TokenLastValidTime`, `false` for an unset `TokenValid` or `HA`, and `Configstate: not set`
for an unset `Config`. An `Attribute` shows `<nil>` for each of its seven fields. A present
`Service` shows the empty string for an unset `Url`, `Org`, `Name`, `Arch`, `VersionRange`,
`AutoUpgrade` or `ActiveUpgrade`, and `<nil>` for an unset `Attributes`. -/
theorem C9_unset_field_fallbacks {V : Type} (fmtV : V → String) :
    Configstate.String none = Except.ok "Configstate: not set" ∧
    (∀ h : HorizonDevice, h.String = Except.ok (deviceForm
      (h.Id.getD "not set") (h.Org.getD "not set") (h.Pattern.getD "not set")
      (h.Name.getD "not set")
      (match h.Token with
        | none => "not set"
        | some t => credText (some t))
      (fmtUint (h.TokenLastValidTime.getD 0)) (fmtBool (h.TokenValid.getD false))
      (fmtBool (h.HA.getD false))
      (match h.Config with
        | none => "Configstate: not set"
        | some c => fmtStringer false (Configstate.String (some c))))) ∧
    (∀ a : Attribute V, a.String fmtV = Except.ok (attributeForm
      (match a.Id with
        | none => "<nil>"
        | some v => v)
      (match a.Type_ with
        | none => "<nil>"
        | some v => v)
      (match a.SensorUrls with
        | none => "<nil>"
        | some v => fmtStrings v)
      (match a.Label with
        | none => "<nil>"
        | some v => v)
      (match a.Publishable with
        | none => "<nil>"
        | some v => fmtBool v)
      (match a.HostOnly with
        | none => "<nil>"
        | some v => fmtBool v)
      (match a.Mappings with
        | none => "<nil>"
        | some v => fmtMap fmtV v))) ∧
    (∀ s : Service V, Service.String fmtV (some s) = Except.ok (serviceForm
      (s.Url.getD "") (s.Org.getD "") (s.Name.getD "") (s.Arch.getD "")
      (s.VersionRange.getD "")
      (match s.AutoUpgrade with
        | none => ""
        | some b => fmtBool b)
      (match s.ActiveUpgrade with
        | none => ""
        | some b => fmtBool b)
      (match s.Attributes with
        | none => "<nil>"
        | some l => fmtAttributes fmtV (some l)))) := by
  refine ⟨rfl, ?_, ?_, ?_⟩
  · intro h
    rw [device_String_ok]
    obtain ⟨id, org, pat, name, token, tlvt, tv, ha, config⟩ := h
    cases token <;> cases config <;> rfl
  · intro a
    rw [attribute_String_ok]
    obtain ⟨id, type, urls, label, pub, host, maps⟩ := a
    cases id <;> cases type <;> cases urls <;> cases label <;> cases pub <;> cases host <;>
      cases maps <;> rfl
  · intro s
    rw [service_String_ok]
    obtain ⟨url, org, name, arch, version, auto, active, attrs⟩ := s
    cases auto <;> cases active <;> cases attrs <;> rfl

/-- Witness of C9: the renderings of the zero values of `HorizonDevice`, `Attribute` and
`Service`, every field unset. -/
theorem C9_unset_field_fallbacks_witness :
    HorizonDevice.String zeroDevice = Except.ok
      "Id: not set, Org: not set, Pattern: not set, Name: not set, Token: [not set], TokenLastValidTime: 0, TokenValid: false, HA: false, Configstate: not set" ∧
    Attribute.String fmtNat zeroAttribute = Except.ok
      "Id: <nil>, Type: <nil>, SensorUrls: <nil>, Label: <nil>, Publishable: <nil>, HostOnly: <nil>, Mappings: <nil>" ∧
    Service.String fmtNat (some zeroService) = Except.ok
      "Url: , Org: , Name: , Arch: , VersionRange: , AutoUpgrade: , ActiveUpgrade: , Attributes: <nil>" :=
  ⟨((C9_unset_field_fallbacks fmtNat).2.1 zeroDevice).trans (by decide),
    ((C9_unset_field_fallbacks fmtNat).2.2.1 zeroAttribute).trans (by decide),
    ((C9_unset_field_fallbacks fmtNat).2.2.2 zeroService).trans (by decide)⟩

theorem sortKeys_eq_insertionSort {V : Type} (m : List (String × V)) :
    sortKeys m = m.insertionSort (fun x y => keyLE x.1 y.1 = true) := by
  induction m with
  | nil => rfl
  | cons x xs ih =>
    simp only [sortKeys, List.insertionSort, ih]
    generalize List.insertionSort (fun x y => keyLE x.1 y.1 = true) xs = l
    induction l with
    | nil => rfl
    | cons y ys ih2 =>
      simp only [insertKey, List.orderedInsert, ih2]

theorem sortKeys_perm {V : Type} (m : List (String × V)) : (sortKeys m).Perm m := by
  rw [sortKeys_eq_insertionSort]
  exact List.perm_insertionSort _ m

theorem sortKeys_sorted {V : Type} (m : List (String × V)) :
    (sortKeys m).Pairwise (fun x y => x.1.data ≤ y.1.data) := by
  have total : IsTotal (String × V) (fun x y => keyLE x.1 y.1 = true) :=
    ⟨fun x y => by simp only [keyLE, decide_eq_true_eq]; exact le_total _ _⟩
  have trans : IsTrans (String × V) (fun x y => keyLE x.1 y.1 = true) :=
    ⟨fun x y z => by simp only [keyLE, decide_eq_true_eq]; exact le_trans⟩
  have sorted := List.sorted_insertionSort (fun x y : String × V => keyLE x.1 y.1 = true) m
  rw [← sortKeys_eq_insertionSort] at sorted
  exact List.Pairwise.imp (fun hle => by simpa [keyLE] using hle) sorted

/-- C10: `Attribute.String` returns a string for every attribute, whichever of its seven
fields are unset, of the form `Id: _, Type: _, SensorUrls: _, Label: _, Publishable: _,
HostOnly: _, Mappings: _`. An unset field is rendered as `<nil>`. A present field is rendered
as the value it holds: a string as itself, a flag as `true` or `false`, the sensor URLs in
their order, separated by blanks, in brackets, and the mappings as `map[...]` holding each
entry of the map once, as `key:value`, the entries separated by blanks and ordered by key. -/
theorem C10_attribute_rendering {V : Type} (fmtV : V → String) (a : Attribute V) :
    ∃ mappings, a.String fmtV = Except.ok (
      "Id: " ++ (match a.Id with
        | none => "<nil>"
        | some v => v)
      ++ ", Type: " ++ (match a.Type_ with
        | none => "<nil>"
        | some v => v)
      ++ ", SensorUrls: " ++ (match a.SensorUrls with
        | none => "<nil>"
        | some urls => "[" ++ " ".intercalate urls ++ "]")
      ++ ", Label: " ++ (match a.Label with
        | none => "<nil>"
        | some v => v)
      ++ ", Publishable: " ++ (match a.Publishable with
        | none => "<nil>"
        | some true => "true"
        | some false => "false")
      ++ ", HostOnly: " ++ (match a.HostOnly with
        | none => "<nil>"
        | some true => "true"
        | some false => "false")
      ++ ", Mappings: " ++ mappings) ∧
      (a.Mappings = none → mappings = "<nil>") ∧
      (∀ m, a.Mappings = some m → ∃ entries : List (String × V),
        entries.Perm m ∧ entries.Pairwise (fun x y => x.1.data ≤ y.1.data) ∧
        mappings = "map[" ++ " ".intercalate (entries.map fun kv => kv.1 ++ ":" ++ fmtV kv.2)
          ++ "]") := by
  refine ⟨shownOrNil (fmtMap fmtV) a.Mappings, ?_, ?_, ?_⟩
  · rw [attribute_String_ok]
    obtain ⟨id, type, urls, label, pub, host, maps⟩ := a
    cases id <;> cases type <;> cases urls <;> cases label <;>
      rcases pub with _ | _ | _ <;> rcases host with _ | _ | _ <;> rfl
  · intro hnone
    rw [hnone]
    rfl
  · intro m hm
    rw [hm]
    exact ⟨sortKeys m, sortKeys_perm m, sortKeys_sorted m, rfl⟩

/-- Witness of C10: an attribute with every field present renders each value it holds, the
two sensor URLs in their order and the two mappings sorted by key. -/
theorem C10_attribute_rendering_witness :
    (∃ mappings, Attribute.String fmtNat fullAttribute = Except.ok
      ("Id: a1, Type: location, SensorUrls: [u1 u2], Label: where, Publishable: true, HostOnly: false, Mappings: "
        ++ mappings)) ∧
    Attribute.String fmtNat fullAttribute = Except.ok
      "Id: a1, Type: location, SensorUrls: [u1 u2], Label: where, Publishable: true, HostOnly: false, Mappings: map[a:2 z:1]" := by
  obtain ⟨mappings, hs, _, _⟩ := C10_attribute_rendering fmtNat fullAttribute
  exact ⟨⟨mappings, hs.trans (by rfl)⟩, by rfl⟩

/-! ## Serialisation of a converted record -/

/-- C11: serialising the result of the conversion by the field tags of `HorizonDevice`
yields an object whose keys are `id`, `organization`, `pattern`, `name`,
`token_last_valid_time`, `token_valid`, `ha` and `configstate` (the nested object having the
keys `state` and `last_update_time`): there is no `token` key, whatever the persisted token. -/
theorem C11_converted_json_has_no_token (p : persistence.ExchangeDevice) :
    ∃ h c, ConvertFromPersistentHorizonDevice (some p) = Except.ok h ∧
      (marshalHorizonDevice h).keys = ["id", "organization", "pattern", "name",
        "token_last_valid_time", "token_valid", "ha", "configstate"] ∧
      "token" ∉ (marshalHorizonDevice h).keys ∧
      h.Config = some c ∧ (marshalConfigstate c).keys = ["state", "last_update_time"] := by
  refine ⟨_, _, convert_present p, rfl, ?_, rfl, rfl⟩
  show "token" ∉ ["id", "organization", "pattern", "name", "token_last_valid_time",
    "token_valid", "ha", "configstate"]
  decide

/-! ## Configuration state machine -/

/-- C12, as stated, fails on the modelled state machine: the two transitions of the claim
succeed, but the stamp of the second is the clock reading of that transition, and with the
wall clock set back between them (readings 100, then 5) it is smaller than the first. -/
theorem C12_stamp_follows_clock :
    ∃ s₁ s₂,
      transition 100 { phase := Phase.unconfigured, lastUpdateTime := none } Phase.configuring
        = Except.ok s₁ ∧
      transition 5 s₁ Phase.configured = Except.ok s₂ ∧
      s₁.lastUpdateTime = some 100 ∧ s₂.lastUpdateTime = some 5 ∧ ¬ (100 ≤ 5) :=
  ⟨_, _, rfl, rfl, rfl, rfl, by decide⟩

/-- C12, amended: on the modelled state machine `transition` accepts exactly the allowed
edges (`unconfigured → configuring`, `configuring → configured`, `configured → configuring`
and any phase `→ failed`), moving to the target and stamping `lastUpdateTime` with the clock
reading of the transition, and fails on every other edge with `InvalidTransition` naming the
current phase and the target. So `transition(unconfigured, configured)` fails, while
`transition(unconfigured, configuring)` followed by `transition(configuring, configured)`
both succeed, and the second stamp is not smaller than the first exactly when the second
clock reading is not smaller than the first. -/
theorem C12_transition_legality (current : ConfigurationState) (target : Phase)
    (now now₁ now₂ : Nat) (prev : Option Nat) :
    ((target = Phase.failed
        ∨ (current.phase = Phase.unconfigured ∧ target = Phase.configuring)
        ∨ (current.phase = Phase.configuring ∧ target = Phase.configured)
        ∨ (current.phase = Phase.configured ∧ target = Phase.configuring)) →
      transition now current target
        = Except.ok { phase := target, lastUpdateTime := some now }) ∧
    (¬ (target = Phase.failed
        ∨ (current.phase = Phase.unconfigured ∧ target = Phase.configuring)
        ∨ (current.phase = Phase.configuring ∧ target = Phase.configured)
        ∨ (current.phase = Phase.configured ∧ target = Phase.configuring)) →
      transition now current target
        = Except.error (Condition.InvalidTransition current.phase target)) ∧
    transition now₁ { phase := Phase.unconfigured, lastUpdateTime := prev } Phase.configured
      = Except.error (Condition.InvalidTransition Phase.unconfigured Phase.configured) ∧
    ∃ s₁ s₂,
      transition now₁ { phase := Phase.unconfigured, lastUpdateTime := prev } Phase.configuring
        = Except.ok s₁ ∧
      transition now₂ s₁ Phase.configured = Except.ok s₂ ∧
      s₁ = { phase := Phase.configuring, lastUpdateTime := some now₁ } ∧
      s₂ = { phase := Phase.configured, lastUpdateTime := some now₂ } ∧
      (∀ t₁ t₂, s₁.lastUpdateTime = some t₁ → s₂.lastUpdateTime = some t₂ →
        (t₁ ≤ t₂ ↔ now₁ ≤ now₂)) := by
  refine ⟨?_, ?_, rfl, _, _, rfl, rfl, rfl, rfl, ?_⟩
  · obtain ⟨phase, time⟩ := current
    intro hedge
    cases phase <;> cases target <;> simp at hedge <;> rfl
  · obtain ⟨phase, time⟩ := current
    intro hedge
    cases phase <;> cases target <;> simp at hedge <;> rfl
  · intro t₁ t₂ h₁ h₂
    cases h₁
    cases h₂
    exact Iff.rfl

/-- Witness of C12: every one of the sixteen edges, the allowed ones (seven) succeeding and
the others failing, at clock reading 7. -/
theorem C12_transition_legality_witness :
    [Phase.unconfigured, Phase.configuring, Phase.configured, Phase.failed].map (fun cur =>
      [Phase.unconfigured, Phase.configuring, Phase.configured, Phase.failed].map (fun tgt =>
        decide (transition 7 { phase := cur, lastUpdateTime := none } tgt
          = Except.ok { phase := tgt, lastUpdateTime := some 7 })))
      = [[false, true, false, true], [false, false, true, true],
         [false, true, false, true], [false, false, false, true]] ∧
    transition 7 { phase := Phase.configured, lastUpdateTime := some 3 } Phase.unconfigured
      = Except.error (Condition.InvalidTransition Phase.configured Phase.unconfigured) :=
  ⟨by decide,
    (C12_transition_legality { phase := Phase.configured, lastUpdateTime := some 3 }
      Phase.unconfigured 7 0 0 none).2.1 (by decide)⟩

/-! ## Service descriptor resolution -/

theorem matchesCandidate_error {V : Type} (normArch : String → String) (c : Candidate)
    (d : Service V) (e : Condition) (h : matchesCandidate normArch c d = Except.error e) :
    e = Condition.MalformedVersionRange := by
  unfold matchesCandidate at h
  split at h
  · split at h
    · unfold rangeContains at h
      split at h
      · cases h
      · cases h
        rfl
    · cases h
  · cases h

theorem matchesCandidate_true_iff {V : Type} (normArch : String → String) (c : Candidate)
    (d : Service V) :
    matchesCandidate normArch c d = Except.ok true ↔
      d.Org = some c.org ∧ d.Url = some c.url ∧
      (∃ arch, d.Arch = some arch ∧ normArch arch = normArch c.arch) ∧
      ∃ text range, d.VersionRange = some text ∧ parseVersionRange text.data = some range ∧
        range.contains c.version = true := by
  obtain ⟨url, org, name, arch, version, auto, active, attrs⟩ := d
  unfold matchesCandidate rangeContains
  cases version with
  | none => simp
  | some text =>
    cases hparse : parseVersionRange text.data with
    | none =>
      simp only [hparse]
      constructor
      · intro h
        split at h <;> cases h
      · rintro ⟨_, _, _, t, r, ht, hr, _⟩
        cases ht
        rw [hparse] at hr
        cases hr
    | some range =>
      simp only [hparse]
      constructor
      · intro h
        split at h
        · rename_i hcond
          simp only [Bool.and_eq_true, beq_iff_eq] at hcond
          obtain ⟨⟨horg, hurl⟩, harch⟩ := hcond
          cases arch with
          | none => cases harch
          | some a =>
            simp only [Option.map_some', Option.some.injEq] at harch
            exact ⟨horg, hurl, ⟨a, rfl, harch⟩, text, range, rfl, hparse, Except.ok.inj h⟩
        · cases h
      · rintro ⟨horg, hurl, ⟨a, ha, hnorm⟩, t, r, ht, hr, hcontains⟩
        cases ht
        rw [hparse] at hr
        cases hr
        change org = some c.org at horg
        change url = some c.url at hurl
        change arch = some a at ha
        subst horg hurl ha
        simp [hnorm, hcontains]

theorem selectMatching_ok {V : Type} (normArch : String → String) (c : Candidate)
    (ds : List (Service V))
    (hwell : ∀ d ∈ ds, ∃ b, matchesCandidate normArch c d = Except.ok b) :
    selectMatching normArch c ds
      = Except.ok (ds.filter fun d => decide (matchesCandidate normArch c d = Except.ok true)) := by
  induction ds with
  | nil => rfl
  | cons d ds ih =>
    obtain ⟨b, hb⟩ := hwell d (List.mem_cons_self d ds)
    have ih' := ih fun x hx => hwell x (List.mem_cons_of_mem d hx)
    unfold selectMatching
    rw [hb, ih']
    cases b <;> simp [hb, List.filter] <;> rfl

theorem selectMatching_error {V : Type} (normArch : String → String) (c : Candidate)
    (ds : List (Service V)) (d : Service V) (hd : d ∈ ds)
    (hbad : matchesCandidate normArch c d = Except.error Condition.MalformedVersionRange) :
    selectMatching normArch c ds = Except.error Condition.MalformedVersionRange := by
  induction ds with
  | nil => cases hd
  | cons x xs ih =>
    unfold selectMatching
    cases hx : matchesCandidate normArch c x with
    | error e =>
      rw [matchesCandidate_error normArch c x e hx]
      rfl
    | ok b =>
      rcases List.mem_cons.mp hd with heq | hmem
      · rw [heq, hx] at hbad
        cases hbad
      · rw [ih hmem]
        rfl

theorem matches_descriptorOne (normArch : String → String) (version : Version) :
    matchesCandidate normArch (candidateAt version) descriptorOne
      = rangeContains "[1.0.0,2.0.0)" version := by
  simp [matchesCandidate, candidateAt, descriptorOne, NewService]

theorem matches_descriptorTwo (normArch : String → String) (version : Version) :
    matchesCandidate normArch (candidateAt version) descriptorTwo
      = rangeContains "[1.5.0,3.0.0)" version := by
  simp [matchesCandidate, candidateAt, descriptorTwo, NewService]

/-- C13: on the modelled resolver a descriptor matches the candidate when its `org` and
`url` are the candidate's, its `arch` equals the candidate's after normalisation and its
range, read by the range grammar, contains the candidate version. For descriptors whose
ranges can be read, resolution fails with `AmbiguousConfiguration` when more than one
matches, returns the descriptor when exactly one matches, and returns none when none does; a
malformed range on a descriptor of the candidate's service surfaces as
`MalformedVersionRange`. For the two descriptors on `o1`, `u1`, `amd64` with ranges
`[1.0.0,2.0.0)` and `[1.5.0,3.0.0)`, version `1.7.0` is ambiguous and version `1.2.0`
resolves to the first. -/
theorem C13_resolution_unambiguous {V : Type} (normArch : String → String)
    (descriptors : List (Service V)) (c : Candidate) :
    (∀ d : Service V, matchesCandidate normArch c d = Except.ok true ↔
      d.Org = some c.org ∧ d.Url = some c.url ∧
      (∃ arch, d.Arch = some arch ∧ normArch arch = normArch c.arch) ∧
      ∃ text range, d.VersionRange = some text ∧ parseVersionRange text.data = some range ∧
        range.contains c.version = true) ∧
    (∀ d ∈ descriptors, ∀ text, d.Org = some c.org → d.Url = some c.url →
      (∃ arch, d.Arch = some arch ∧ normArch arch = normArch c.arch) →
      d.VersionRange = some text → parseVersionRange text.data = none →
      resolve normArch descriptors c = Except.error Condition.MalformedVersionRange) ∧
    ((∀ d ∈ descriptors, ∃ b, matchesCandidate normArch c d = Except.ok b) →
      (1 < (descriptors.filter fun d =>
          decide (matchesCandidate normArch c d = Except.ok true)).length →
        resolve normArch descriptors c = Except.error Condition.AmbiguousConfiguration) ∧
      (∀ d ∈ descriptors, matchesCandidate normArch c d = Except.ok true →
        (descriptors.filter fun d =>
          decide (matchesCandidate normArch c d = Except.ok true)).length = 1 →
        resolve normArch descriptors c = Except.ok (some d)) ∧
      ((descriptors.filter fun d =>
          decide (matchesCandidate normArch c d = Except.ok true)).length = 0 →
        resolve normArch descriptors c = Except.ok none)) ∧
    resolve normArch [descriptorOne, descriptorTwo] (candidateAt (release 1 7 0))
      = Except.error Condition.AmbiguousConfiguration ∧
    resolve normArch [descriptorOne, descriptorTwo] (candidateAt (release 1 2 0))
      = Except.ok (some descriptorOne) := by
  refine ⟨matchesCandidate_true_iff normArch c, ?_, ?_, ?_, ?_⟩
  · intro d hd text horg hurl harch hrange hparse
    have hbad : matchesCandidate normArch c d
        = Except.error Condition.MalformedVersionRange := by
      obtain ⟨arch, ha, hnorm⟩ := harch
      unfold matchesCandidate rangeContains
      simp [horg, hurl, ha, hnorm, hrange, hparse]
    unfold resolve
    rw [selectMatching_error normArch c descriptors d hd hbad]
    rfl
  · intro hwell
    have hsel := selectMatching_ok normArch c descriptors hwell
    refine ⟨?_, ?_, ?_⟩
    · intro hlen
      unfold resolve
      rw [hsel]
      match hf : descriptors.filter
          (fun d => decide (matchesCandidate normArch c d = Except.ok true)) with
      | [] => rw [hf] at hlen; simp at hlen
      | [d] => rw [hf] at hlen; simp at hlen
      | _ :: _ :: _ => rfl
    · intro d hd hm hlen
      have hmem : d ∈ descriptors.filter
          (fun d => decide (matchesCandidate normArch c d = Except.ok true)) :=
        List.mem_filter.mpr ⟨hd, by simpa using hm⟩
      unfold resolve
      rw [hsel]
      match hf : descriptors.filter
          (fun d => decide (matchesCandidate normArch c d = Except.ok true)) with
      | [] => rw [hf] at hlen; simp at hlen
      | [x] =>
        rw [hf] at hmem
        rw [List.mem_singleton.mp hmem]
        rfl
      | _ :: _ :: _ => rw [hf] at hlen; simp at hlen
    · intro hlen
      unfold resolve
      rw [hsel, List.length_eq_zero.mp hlen]
      rfl
  · have h₁ : rangeContains "[1.0.0,2.0.0)" (release 1 7 0) = Except.ok true := by decide
    have h₂ : rangeContains "[1.5.0,3.0.0)" (release 1 7 0) = Except.ok true := by decide
    simp only [resolve, selectMatching, matches_descriptorOne, matches_descriptorTwo, h₁, h₂]
    rfl
  · have h₁ : rangeContains "[1.0.0,2.0.0)" (release 1 2 0) = Except.ok true := by decide
    have h₂ : rangeContains "[1.5.0,3.0.0)" (release 1 2 0) = Except.ok false := by decide
    simp only [resolve, selectMatching, matches_descriptorOne, matches_descriptorTwo, h₁, h₂]
    rfl

set_option maxRecDepth 100000 in
/-- Witness of C13: the general statement applied to the two example descriptors at version
`2.5.0` (only the second matches), and the model evaluated on literal inputs: the reading of
version texts, the standard ordering with pre-releases, the ends of ranges, descriptors of
another organisation, URL or architecture, an architecture synonym, and a malformed range. -/
theorem C13_resolution_unambiguous_witness :
    resolve id [descriptorOne, descriptorTwo] (candidateAt (release 2 5 0))
      = Except.ok (some descriptorTwo) ∧
    parseVersion "1.7.0".data = some (release 1 7 0) ∧
    parseVersion "1.0.0-alpha.1".data = some (Version.mk 1 0 0 [PreId.text "alpha".data, PreId.numeric 1]) ∧
    parseVersion "1.0".data = none ∧
    (release 1 2 0).lt (release 1 10 0) = true ∧
    (release 1 0 0).lt (release 1 0 0) = false ∧
    (parseVersion "1.0.0-alpha".data).map (fun v => (v.lt (release 1 0 0), (release 1 0 0).lt v))
      = some (true, false) ∧
    (parseVersion "1.0.0-2".data).bind (fun v => (parseVersion "1.0.0-10".data).map v.lt)
      = some true ∧
    (parseVersion "1.0.0-10".data).bind (fun v => (parseVersion "1.0.0-alpha".data).map v.lt)
      = some true ∧
    (parseVersion "1.0.0-alpha".data).bind (fun v => (parseVersion "1.0.0-beta".data).map v.lt)
      = some true ∧
    (parseVersion "1.0.0-alpha".data).bind
      (fun v => (parseVersion "1.0.0-alpha.1".data).map v.lt) = some true ∧
    [rangeContains "[1.0.0,2.0.0)" (release 1 0 0), rangeContains "[1.0.0,2.0.0)" (release 2 0 0),
      rangeContains "(1.0.0,2.0.0]" (release 1 0 0), rangeContains "(1.0.0,2.0.0]" (release 2 0 0),
      rangeContains "1.0.0" (release 1 0 0), rangeContains "1.0.0" (release 1 0 1),
      rangeContains "[1.0.0,2.0.0)" (Version.mk 1 0 0 [PreId.text "alpha".data]),
      rangeContains "1.0.0,2.0.0" (release 1 5 0), rangeContains "[1.0.0;2.0.0)" (release 1 5 0)]
      = [Except.ok true, Except.ok false, Except.ok false, Except.ok true, Except.ok true,
        Except.ok false, Except.ok false, Except.error Condition.MalformedVersionRange,
        Except.error Condition.MalformedVersionRange] ∧
    resolve id [descriptorOtherOrg, descriptorOtherUrl, descriptorOtherArch, descriptorSynonym,
      descriptorOne] (candidateAt (release 1 2 0)) = Except.ok (some descriptorOne) ∧
    resolve normaliseArch [descriptorOtherArch, descriptorSynonym] (candidateAt (release 1 2 0))
      = Except.ok (some descriptorSynonym) ∧
    resolve normaliseArch [descriptorOne, descriptorSynonym] (candidateAt (release 1 2 0))
      = Except.error Condition.AmbiguousConfiguration ∧
    resolve id [descriptorOne, descriptorTwo] (candidateAt (release 3 0 0)) = Except.ok none ∧
    resolve id [descriptorOne, descriptorMalformed] (candidateAt (release 1 2 0))
      = Except.error Condition.MalformedVersionRange ∧
    resolve id [descriptorOne, descriptorTwo, descriptorMalformed] (candidateAt (release 1 7 0))
      = Except.error Condition.MalformedVersionRange :=
  ⟨((C13_resolution_unambiguous id [descriptorOne, descriptorTwo]
      (candidateAt (release 2 5 0))).2.2.1 (by decide)).2.1 descriptorTwo (by decide)
      (by decide) (by decide),
    by decide⟩

/-! ## Renderings: totality and exact texts -/

/-- C14: `HorizonDevice.String` returns a string for every device: an unset `Id`, `Org`,
`Pattern` or `Name` is rendered as `not set` in its position, with `Config` unset the
rendering ends in `Configstate: not set`, and a present `Config` whose rendering faults
(its `State` or `LastUpdateTime` unset) still yields a string, the fault being recovered
into the last position. -/
theorem C14_device_rendering_total (h : HorizonDevice) :
    ∃ cred tlvt tokenValid ha config,
      h.String = Except.ok (deviceForm (h.Id.getD "not set") (h.Org.getD "not set")
        (h.Pattern.getD "not set") (h.Name.getD "not set") cred tlvt tokenValid ha config) ∧
      (h.Config = none → config = "Configstate: not set") ∧
      (∀ c, h.Config = some c → c.State = none ∨ c.LastUpdateTime = none →
        Configstate.String (some c) = Except.error Fault.nilDeref ∧
        config = "%!v(PANIC=String method: " ++ Fault.nilDeref.text ++ ")") := by
  refine ⟨_, _, _, _, _, device_String_ok h, ?_, ?_⟩
  · intro hc
    rw [hc]
    rfl
  · intro c hc hunset
    rw [hc]
    obtain ⟨state, time⟩ := c
    rcases hunset with hs | ht
    · simp only at hs
      subst hs
      exact ⟨rfl, rfl⟩
    · simp only at ht
      subst ht
      cases state <;> exact ⟨rfl, rfl⟩

/-- Witness of C14: a device with every field unset but `Config`, which is present with
`State` unset, renders to a string. -/
theorem C14_device_rendering_total_witness :
    (∃ cred tlvt tokenValid ha config,
      HorizonDevice.String deviceHalfConfigured = Except.ok (deviceForm "not set" "not set"
        "not set" "not set" cred tlvt tokenValid ha config)) ∧
    HorizonDevice.String deviceHalfConfigured = Except.ok
      "Id: not set, Org: not set, Pattern: not set, Name: not set, Token: [not set], TokenLastValidTime: 0, TokenValid: false, HA: false, %!v(PANIC=String method: runtime error: invalid memory address or nil pointer dereference)" := by
  obtain ⟨cred, tlvt, tokenValid, ha, config, hs, _, _⟩ :=
    C14_device_rendering_total deviceHalfConfigured
  exact ⟨⟨cred, tlvt, tokenValid, ha, config, hs⟩, by rfl⟩

/-- C15: `Configstate.String` faults exactly when the receiver is present and its `State`
or its `LastUpdateTime` is unset: a nil receiver renders as `Configstate: not set`, a
receiver with `State = s` and `LastUpdateTime = t` renders as `State: s, Time: t` with `t`
in decimal digits, and every other receiver yields a nil-dereference fault. -/
theorem C15_configstate_rendering (c : Option Configstate) :
    Configstate.String none = Except.ok "Configstate: not set" ∧
    (∀ s t, c = some { State := some s, LastUpdateTime := some t } →
      Configstate.String c
        = Except.ok ("State: " ++ s ++ ", Time: " ++ String.mk (Nat.toDigits 10 t))) ∧
    (∀ c₁, c = some c₁ → c₁.State = none ∨ c₁.LastUpdateTime = none →
      Configstate.String c = Except.error Fault.nilDeref) ∧
    ((∃ f, Configstate.String c = Except.error f) ↔
      ∃ c₁, c = some c₁ ∧ (c₁.State = none ∨ c₁.LastUpdateTime = none)) := by
  refine ⟨rfl, ?_, ?_, ?_⟩
  · intro s t hc
    rw [hc]
    rfl
  · intro c₁ hc hunset
    rw [hc]
    obtain ⟨state, time⟩ := c₁
    cases state <;> cases time <;> simp at hunset <;> rfl
  · cases c with
    | none =>
      constructor
      · rintro ⟨f, hf⟩
        cases hf
      · rintro ⟨c₁, hc, _⟩
        cases hc
    | some c₁ =>
      obtain ⟨state, time⟩ := c₁
      cases state <;> cases time
      · exact ⟨fun _ => ⟨_, rfl, Or.inl rfl⟩, fun _ => ⟨_, rfl⟩⟩
      · exact ⟨fun _ => ⟨_, rfl, Or.inl rfl⟩, fun _ => ⟨_, rfl⟩⟩
      · exact ⟨fun _ => ⟨_, rfl, Or.inr rfl⟩, fun _ => ⟨_, rfl⟩⟩
      · constructor
        · rintro ⟨f, hf⟩
          cases hf
        · rintro ⟨c₁, hc, hunset⟩
          cases hc
          simp at hunset

/-- Witness of C15: the three kinds of receiver. -/
theorem C15_configstate_rendering_witness :
    Configstate.String (some { State := some "configured", LastUpdateTime := some 1500 })
      = Except.ok "State: configured, Time: 1500" ∧
    Configstate.String (some { State := some "configured", LastUpdateTime := none })
      = Except.error Fault.nilDeref :=
  ⟨((C15_configstate_rendering _).2.1 "configured" 1500 rfl).trans (by decide),
    (C15_configstate_rendering _).2.2.1 _ rfl (Or.inr rfl)⟩

theorem configstate_String_present (state : String) (time : Nat) :
    Configstate.String (some { State := some state, LastUpdateTime := some time })
      = Except.ok ("State: " ++ state ++ ", Time: " ++ fmtUint time) :=
  rfl

theorem fmtStringer_ok (receiverNil : Bool) (s : String) :
    fmtStringer receiverNil (Except.ok s) = s :=
  rfl

/-- C16: rendering a converted record does not fail and gives the text `Id: <Id>,
Org: <Org>, Pattern: <Pattern>, Name: <Name>, Token: [not set], TokenLastValidTime: <time>,
TokenValid: <bool>, HA: <bool>, State: <state>, Time: <time>` built from the record's fields,
the two times in decimal digits and the two flags as `true` or `false`, whatever the
record's token is. -/
theorem C16_converted_rendering (p : persistence.ExchangeDevice) :
    ∃ h, ConvertFromPersistentHorizonDevice (some p) = Except.ok h ∧
      h.String = Except.ok ("Id: " ++ p.Id ++ ", Org: " ++ p.Org ++ ", Pattern: " ++ p.Pattern
        ++ ", Name: " ++ p.Name ++ ", Token: [not set], TokenLastValidTime: "
        ++ String.mk (Nat.toDigits 10 p.TokenLastValidTime)
        ++ ", TokenValid: " ++ (match p.TokenValid with
          | true => "true"
          | false => "false")
        ++ ", HA: " ++ (match p.HA with
          | true => "true"
          | false => "false")
        ++ ", State: " ++ p.Config.State
        ++ ", Time: " ++ String.mk (Nat.toDigits 10 p.Config.LastUpdateTime)) := by
  refine ⟨_, convert_present p, ?_⟩
  rw [device_String_ok]
  rw [show (", Token: [not set], TokenLastValidTime: " : String)
      = ", Token: [" ++ "not set" ++ "], TokenLastValidTime: " from by decide,
    show (", State: " : String) = ", " ++ "State: " from by decide]
  simp only [configstate_String_present, fmtStringer_ok, Option.getD_some,
    credText_unset none (fun _ hn => nomatch hn), String.append_assoc]
  obtain ⟨id, org, pat, name, token, tlvt, tv, ha, config⟩ := p
  cases tv <;> cases ha <;> rfl

set_option maxRecDepth 100000 in
/-- Witness of C16: the rendering of the converted `recordA`, whose token is `s3cret`. -/
theorem C16_converted_rendering_witness :
    recordA.Token = "s3cret" ∧
    ∃ h, ConvertFromPersistentHorizonDevice (some recordA) = Except.ok h ∧
      h.String = Except.ok
        "Id: dev1, Org: org1, Pattern: pat1, Name: node1, Token: [not set], TokenLastValidTime: 1500000000, TokenValid: true, HA: false, State: configured, Time: 1500000100" := by
  obtain ⟨h, hc, hs⟩ := C16_converted_rendering recordA
  exact ⟨rfl, h, hc, hs.trans (by decide)⟩

/-- C17: `Service.String` returns a string for every present `Service`: an unset `Url`,
`Org`, `Name`, `Arch`, `VersionRange`, `AutoUpgrade` or `ActiveUpgrade` is rendered as the
empty string, a present `AutoUpgrade` or `ActiveUpgrade` as `true` or `false`, an unset
`Attributes` as `<nil>`; and the rendering of `NewService u o n a v` is `Url: u, Org: o,
Name: n, Arch: a, VersionRange: v, AutoUpgrade: true, ActiveUpgrade: false, Attributes: &[]`. -/
theorem C17_service_rendering {V : Type} (fmtV : V → String) (s : Service V)
    (u o n a v : String) :
    (∃ attributes, Service.String fmtV (some s) = Except.ok (serviceForm
      (s.Url.getD "") (s.Org.getD "") (s.Name.getD "") (s.Arch.getD "")
      (s.VersionRange.getD "")
      (match s.AutoUpgrade with
        | none => ""
        | some true => "true"
        | some false => "false")
      (match s.ActiveUpgrade with
        | none => ""
        | some true => "true"
        | some false => "false")
      attributes) ∧ (s.Attributes = none → attributes = "<nil>")) ∧
    Service.String fmtV (some (NewService u o n a v)) = Except.ok ("Url: " ++ u ++ ", Org: "
      ++ o ++ ", Name: " ++ n ++ ", Arch: " ++ a ++ ", VersionRange: " ++ v
      ++ ", AutoUpgrade: true, ActiveUpgrade: false, Attributes: &[]") := by
  constructor
  · refine ⟨fmtAttributes fmtV s.Attributes, ?_, ?_⟩
    · rw [service_String_ok]
      obtain ⟨url, org, name, arch, version, auto, active, attrs⟩ := s
      rcases auto with _ | _ | _ <;> rcases active with _ | _ | _ <;> rfl
    · intro hattrs
      rw [hattrs]
      rfl
  · rw [service_String_ok]
    rw [show (", AutoUpgrade: true, ActiveUpgrade: false, Attributes: &[]" : String)
      = ", AutoUpgrade: " ++ "true" ++ ", ActiveUpgrade: " ++ "false" ++ ", Attributes: "
        ++ "&[]" from by decide]
    simp only [String.append_assoc]
    rfl

/-- C18: `HorizonDevice.String` does not tell an unset credential-status field from its
zero value: replacing an unset `TokenValid` by `false`, an unset `HA` by `false`, an unset
`TokenLastValidTime` by 0 or an unset `Token` by the empty string leaves the rendering
unchanged. -/
theorem C18_unset_renders_as_zero_value (h : HorizonDevice) :
    (h.TokenValid = none →
      HorizonDevice.String { h with TokenValid := some false } = h.String) ∧
    (h.HA = none → HorizonDevice.String { h with HA := some false } = h.String) ∧
    (h.TokenLastValidTime = none →
      HorizonDevice.String { h with TokenLastValidTime := some 0 } = h.String) ∧
    (h.Token = none → HorizonDevice.String { h with Token := some "" } = h.String) := by
  refine ⟨?_, ?_, ?_, ?_⟩ <;> intro hunset <;>
    rw [device_String_ok, device_String_ok, hunset] <;> rfl

/-- Witness of C18 on the device with every field unset. -/
theorem C18_unset_renders_as_zero_value_witness :
    HorizonDevice.String { zeroDevice with TokenValid := some false } = zeroDevice.String ∧
    HorizonDevice.String { zeroDevice with HA := some false } = zeroDevice.String ∧
    HorizonDevice.String { zeroDevice with TokenLastValidTime := some 0 } = zeroDevice.String ∧
    HorizonDevice.String { zeroDevice with Token := some "" } = zeroDevice.String :=
  ⟨(C18_unset_renders_as_zero_value zeroDevice).1 rfl,
    (C18_unset_renders_as_zero_value zeroDevice).2.1 rfl,
    (C18_unset_renders_as_zero_value zeroDevice).2.2.1 rfl,
    (C18_unset_renders_as_zero_value zeroDevice).2.2.2 rfl⟩

end api
